import Mathlib

/-!
Verification of `src/main.py` of the repository
`gke-upgrade-slack-notices`: a Cloud Function that relays GKE node-pool
auto-upgrade Pub/Sub events to a Slack webhook.

The Python source is shallowly embedded: Python `dict`s become
association lists (`List (String × String)`), preserving insertion
order, which is the iteration order of a Python dict; fallible Python
operations (dict lookup, `os.environ` lookup, `base64.b64decode`,
`bytes.decode('utf-8')`, `WebhookClient.send`) become `Except PyError`
values; the outbound Slack webhook call is an external collaborator
and is modelled as an input parameter (`SendOutcome`) describing how
`WebhookClient.send` behaves on this invocation, while the embedding
of `main` records the list of webhook invocations it performs.
-/

/-- The Python exceptions the program can raise, collapsed to the cases
the embedding distinguishes. `keyError k` stands for `KeyError(k)`
raised by `d[k]` on a `dict` or by `os.environ[k]`; `binasciiError`
stands for `binascii.Error` raised by `base64.b64decode`;
`unicodeDecodeError` stands for `UnicodeDecodeError` raised by
`bytes.decode('utf-8')`; `slackSendError` stands for an exception
raised by the HTTP client inside `WebhookClient.send` (e.g. a network
failure). -/
inductive PyError where
  | keyError (key : String)
  | binasciiError (msg : String)
  | unicodeDecodeError
  | slackSendError (msg : String)
deriving DecidableEq

deriving instance DecidableEq for Except

/-- First value bound to key `k` in an association list, mirroring a
Python dict lookup (dict keys are unique, so "first" is "the"). -/
def lookupAttr (d : List (String × String)) (k : String) : Option String :=
  match d with
  | [] => none
  | (k', v) :: rest => if k' == k then some v else lookupAttr rest k

/-- Python `d[k]` on a string-to-string dict: the value when the key is
present, `KeyError(k)` otherwise. -/
def dictGet (d : List (String × String)) (k : String) : Except PyError String :=
  match lookupAttr d k with
  | some v => .ok v
  | none => .error (.keyError k)

/-- The `for url in allowed_type_urls` loop of `is_allowed_type`
(src/main.py lines 58-62): for each candidate url, look up
`pubsub_attributes['type_url']` (which raises `KeyError` when the key
is absent) and return `True` on the first match; after the loop,
return `False`. -/
def is_allowed_loop (pubsub_attributes : List (String × String)) :
    List String → Except PyError Bool
  | [] => .ok false
  | url :: rest =>
    match dictGet pubsub_attributes "type_url" with
    | .error e => .error e
    | .ok t => if t == url then .ok true else is_allowed_loop pubsub_attributes rest

/-- `is_allowed_type` (src/main.py lines 51-62): `if not
allowed_type_urls: return True`, then the linear scan comparing
`pubsub_attributes['type_url']` to each allowed url. -/
def is_allowed_type (pubsub_attributes : List (String × String))
    (allowed_type_urls : List String) : Except PyError Bool :=
  if allowed_type_urls.isEmpty then .ok true
  else is_allowed_loop pubsub_attributes allowed_type_urls

/-- `create_slack_message` (src/main.py lines 65-76): start from
`data + "\n```"`, append `f"\n\t{key}: {pubsub_attributes[key]}"` for
each key in iteration order, append `"\n```"`. The Python f-string
evaluates to a single string before being appended. -/
def create_slack_message (data : String) (pubsub_attributes : List (String × String)) : String :=
  let text := data ++ "\n```"
  let text := pubsub_attributes.foldl
    (fun t kv => t ++ ("\n\t" ++ kv.1 ++ ": " ++ kv.2)) text
  text ++ "\n```"

/-- Value of a character in the standard base64 alphabet, `none` for
characters outside it. -/
def b64CharVal (c : Char) : Option Nat :=
  if 'A' ≤ c ∧ c ≤ 'Z' then some (c.toNat - 65)
  else if 'a' ≤ c ∧ c ≤ 'z' then some (c.toNat - 97 + 26)
  else if '0' ≤ c ∧ c ≤ '9' then some (c.toNat - 48 + 52)
  else if c = '+' then some 62
  else if c = '/' then some 63
  else none

/-- Turn a list of 6-bit base64 values into bytes: full groups of four
values give three bytes; a trailing group of two or three values (the
result of `=` padding) gives one or two bytes. A trailing single
value is unreachable after `b64decode`'s padding check. -/
def quadsToBytes : List Nat → List Nat
  | a :: b :: c :: d :: rest =>
    let n := a * 262144 + b * 4096 + c * 64 + d
    (n / 65536) :: (n / 256 % 256) :: (n % 256) :: quadsToBytes rest
  | [a, b] => [(a * 64 + b) / 16]
  | [a, b, c] =>
    let n := a * 4096 + b * 64 + c
    [n / 1024, n / 4 % 256]
  | [_] => []
  | [] => []

/-- Model of Python `base64.b64decode(s)` with its default
`validate=False`, per its documented behaviour: characters outside the
base64 alphabet (other than `=`) are discarded before the padding
check; a discarded-input length that is not a multiple of 4, or `=`
characters that do not form terminal padding of at most two
characters, raise `binascii.Error`; otherwise the remaining characters
are decoded as standard base64. (CPython is laxer in some corner
cases of misplaced padding; no claim depends on those.) -/
def b64decode (s : String) : Except PyError (List Nat) :=
  let kept := s.data.filter (fun c => (b64CharVal c).isSome || c == '=')
  let body := kept.takeWhile (fun c => c ≠ '=')
  let pads := kept.drop body.length
  if kept.length % 4 ≠ 0 then .error (.binasciiError "Incorrect padding")
  else if ¬ (pads.all (fun c => c == '=') ∧ pads.length ≤ 2) then
    .error (.binasciiError "Invalid padding")
  else .ok (quadsToBytes (body.filterMap b64CharVal))

/-- Strict UTF-8 decoding of a byte list, as Python's
`bytes.decode('utf-8')`: rejects truncated sequences, stray
continuation bytes, overlong encodings, surrogate code points and code
points above U+10FFFF. -/
def utf8DecodeGo : List Nat → List Char → Except PyError String
  | [], acc => .ok (String.mk acc.reverse)
  | b :: rest, acc =>
    if b < 128 then utf8DecodeGo rest (Char.ofNat b :: acc)
    else if b < 194 then .error .unicodeDecodeError
    else if b < 224 then
      match rest with
      | [] => .error .unicodeDecodeError
      | b1 :: rest' =>
        if 128 ≤ b1 ∧ b1 < 192 then
          utf8DecodeGo rest' (Char.ofNat ((b - 192) * 64 + (b1 - 128)) :: acc)
        else .error .unicodeDecodeError
    else if b < 240 then
      match rest with
      | b1 :: b2 :: rest' =>
        let lo1 := if b = 224 then 160 else 128
        let hi1 := if b = 237 then 160 else 192
        if (lo1 ≤ b1 ∧ b1 < hi1) ∧ (128 ≤ b2 ∧ b2 < 192) then
          utf8DecodeGo rest'
            (Char.ofNat ((b - 224) * 4096 + (b1 - 128) * 64 + (b2 - 128)) :: acc)
        else .error .unicodeDecodeError
      | _ => .error .unicodeDecodeError
    else if b < 245 then
      match rest with
      | b1 :: b2 :: b3 :: rest' =>
        let lo1 := if b = 240 then 144 else 128
        let hi1 := if b = 244 then 144 else 192
        if (lo1 ≤ b1 ∧ b1 < hi1) ∧ (128 ≤ b2 ∧ b2 < 192) ∧ (128 ≤ b3 ∧ b3 < 192) then
          utf8DecodeGo rest'
            (Char.ofNat ((b - 240) * 262144 + (b1 - 128) * 4096 + (b2 - 128) * 64 + (b3 - 128)) :: acc)
        else .error .unicodeDecodeError
      | _ => .error .unicodeDecodeError
    else .error .unicodeDecodeError

/-- Python `bytes(bs).decode('utf-8')`. -/
def utf8Decode (bs : List Nat) : Except PyError String :=
  utf8DecodeGo bs []

/-- The inbound Pub/Sub event envelope: the `attributes` and `data`
fields of the `event` dict. `none` models the key being absent from
the dict (so that accessing it raises `KeyError`). -/
structure Event where
  attributes : Option (List (String × String))
  data : Option String
deriving DecidableEq

/-- Behaviour of the external collaborator `WebhookClient.send` on
this invocation. Per slack_sdk's behaviour, `send` raises only when
the HTTP call itself fails (`raises`); an HTTP response from the
destination — of any status code, 2xx or not — is returned to the
caller as a `WebhookResponse` carrying that status (`returns`). -/
inductive SendOutcome where
  | raises (e : PyError)
  | returns (status : Nat)
deriving DecidableEq

/-- One recorded invocation of `webhook.send`: the webhook url the
client was constructed with and the `text=` argument. -/
structure SendCall where
  url : String
  text : String
deriving DecidableEq

/-- The hardcoded allow-list of src/main.py line 106. -/
def allowed_type_urls : List String :=
  ["type.googleapis.com/google.container.v1beta1.UpgradeEvent"]

/-- `main` (src/main.py lines 79-115), with the statements in source
order: `event['attributes']` (line 104), `os.environ['SLACK_WEBHOOK_URL']`
(line 105), the allow-list literal (line 106),
`base64.b64decode(event['data']).decode('utf-8')` (line 108),
`is_allowed_type` (line 110), and, when allowed, the webhook send
(lines 113-115). Returns the invocation's outcome (`.ok ()` for a
normal return, `.error e` for a propagated exception) paired with the
list of webhook invocations performed. The `response` returned by
`webhook.send` is bound on line 115 but never inspected. (Lean
reserves top-level `main`, so the embedding lives in namespace `Py`.) -/
def Py.main (event : Event) (env_SLACK_WEBHOOK_URL : Option String) (send : SendOutcome) :
    Except PyError Unit × List SendCall :=
  match event.attributes with
  | none => (.error (.keyError "attributes"), [])
  | some pubsub_attributes =>
    match env_SLACK_WEBHOOK_URL with
    | none => (.error (.keyError "SLACK_WEBHOOK_URL"), [])
    | some slack_url =>
      match event.data with
      | none => (.error (.keyError "data"), [])
      | some raw =>
        match b64decode raw with
        | .error e => (.error e, [])
        | .ok bs =>
          match utf8Decode bs with
          | .error e => (.error e, [])
          | .ok data =>
            match is_allowed_type pubsub_attributes allowed_type_urls with
            | .error e => (.error e, [])
            | .ok is_allowed =>
              if is_allowed then
                let slack_message := create_slack_message data pubsub_attributes
                match send with
                | .raises e => (.error e, [⟨slack_url, slack_message⟩])
                | .returns _ => (.ok (), [⟨slack_url, slack_message⟩])
              else (.ok (), [])

/-- One formatted attribute line, as the claim words it: newline, tab,
key, `": "`, value. -/
def attrLine (kv : String × String) : String :=
  "\n\t" ++ kv.1 ++ ": " ++ kv.2

/-- Concatenation of the attribute lines in the mapping's iteration
order. -/
def attrLines : List (String × String) → String
  | [] => ""
  | kv :: rest => attrLine kv ++ attrLines rest

/-- The Rendered Message as the spec words it (second definition for
the refinement claim about `create_slack_message`): the decoded text,
a newline and the opening fence marker, one line per attribute in
iteration order, a newline and the closing fence marker. -/
def renderedMessageSpec (decoded_text : String) (attributes : List (String × String)) : String :=
  decoded_text ++ "\n```" ++ attrLines attributes ++ "\n```"

theorem foldl_attrLine (l : List (String × String)) :
    ∀ init : String,
      l.foldl (fun t kv => t ++ ("\n\t" ++ kv.1 ++ ": " ++ kv.2)) init
        = init ++ attrLines l := by
  induction l with
  | nil => intro init; simp [attrLines]
  | cons kv rest ih =>
    intro init
    simp only [List.foldl_cons, attrLines, attrLine]
    rw [ih, String.append_assoc]

theorem create_slack_message_eq (data : String) (attrs : List (String × String)) :
    create_slack_message data attrs = data ++ "\n```" ++ attrLines attrs ++ "\n```" := by
  simp only [create_slack_message]
  rw [foldl_attrLine]

theorem is_allowed_loop_eq (attrs : List (String × String)) (t : String)
    (hl : lookupAttr attrs "type_url" = some t) :
    ∀ L : List String, is_allowed_loop attrs L = .ok (decide (t ∈ L)) := by
  intro L
  induction L with
  | nil => simp [is_allowed_loop]
  | cons url rest ih =>
    simp only [is_allowed_loop, dictGet, hl]
    by_cases ht : t = url
    · subst ht; simp
    · have hbeq : (t == url) = false := by
        simpa using ht
      simp [hbeq, ih, List.mem_cons, ht]

/-- Claim C1: for every attributes mapping that binds the key
`type_url` to `t` and every non-empty allow-list `L`,
`is_allowed_type` returns normally, and returns `True` iff `t` is a
member of `L` under exact, case-sensitive string equality. -/
theorem is_allowed_type_nonempty_lookup (attrs : List (String × String))
    (L : List String) (t : String) (hne : L ≠ [])
    (hl : lookupAttr attrs "type_url" = some t) :
    is_allowed_type attrs L = .ok (decide (t ∈ L)) := by
  have hemp : L.isEmpty = false := by
    simpa using hne
  simp only [is_allowed_type, hemp, Bool.false_eq_true, if_false]
  exact is_allowed_loop_eq attrs t hl L

/-- Witness for C1, at attributes binding `type_url` to a string that
is in the two-element allow-list, and one that is not. -/
theorem is_allowed_type_nonempty_lookup_witness :
    is_allowed_type [("type_url", "b")] ["a", "b"] = .ok true
    ∧ is_allowed_type [("type_url", "c")] ["a", "b"] = .ok false := by
  constructor
  · exact (is_allowed_type_nonempty_lookup [("type_url", "b")] ["a", "b"] "b"
      (by decide) (by decide)).trans (by decide)
  · exact (is_allowed_type_nonempty_lookup [("type_url", "c")] ["a", "b"] "c"
      (by decide) (by decide)).trans (by decide)

/-- Claim C2: `create_slack_message` renders the decoded text, a
newline and the opening fence, one line (newline, tab, key, `": "`,
value) per attribute in iteration order, and a newline and the closing
fence; in particular the empty-mapping and the
`("hello", [("a","1"),("b","2")])` instances have the stated values. -/
theorem create_slack_message_spec :
    (∀ (d : String) (attrs : List (String × String)),
        create_slack_message d attrs = renderedMessageSpec d attrs)
    ∧ (∀ d : String, create_slack_message d [] = d ++ "\n```\n```")
    ∧ create_slack_message "hello" [("a", "1"), ("b", "2")]
        = "hello\n```\n\ta: 1\n\tb: 2\n```" := by
  refine ⟨fun d attrs => create_slack_message_eq d attrs, fun d => ?_, by decide⟩
  rw [create_slack_message_eq d []]
  show d ++ "\n```" ++ attrLines [] ++ "\n```" = d ++ "\n```\n```"
  rw [show attrLines [] = "" from rfl, String.append_empty, String.append_assoc]
  rw [show ("\n```" ++ "\n```" : String) = "\n```\n```" by decide]

/-- Claim C3: for a well-formed event (attributes present, payload
decodable) with the webhook url configured, `main` performs exactly
one webhook send — whose text is the rendered message, which consists
of the decoded payload text followed by the fenced attribute block —
when the event type is allowed, and zero sends when it is not. -/
theorem main_notifier_iff_allowed (attrs : List (String × String)) (raw u : String)
    (bs : List Nat) (txt : String) (send : SendOutcome)
    (hb : b64decode raw = .ok bs) (hu : utf8Decode bs = .ok txt) :
    (is_allowed_type attrs allowed_type_urls = .ok true →
      (Py.main ⟨some attrs, some raw⟩ (some u) send).2
        = [⟨u, create_slack_message txt attrs⟩])
    ∧ (is_allowed_type attrs allowed_type_urls = .ok false →
      (Py.main ⟨some attrs, some raw⟩ (some u) send).2 = [])
    ∧ create_slack_message txt attrs = txt ++ "\n```" ++ attrLines attrs ++ "\n```" := by
  refine ⟨?_, ?_, create_slack_message_eq txt attrs⟩
  · intro hall
    cases send <;> simp [Py.main, hb, hu, hall]
  · intro hall
    simp [Py.main, hb, hu, hall]

/-- Witness for C3: scenario A (an `UpgradeEvent` envelope whose data
is the base64 encoding of "Node pool upgraded") yields exactly one
send of the rendered message, and scenario B (`some.other.Event`)
yields zero sends. -/
theorem main_notifier_iff_allowed_witness :
    (Py.main
        ⟨some [("type_url", "type.googleapis.com/google.container.v1beta1.UpgradeEvent")],
          some "Tm9kZSBwb29sIHVwZ3JhZGVk"⟩
        (some "https://hooks.example/x") (.returns 200)).2
      = [⟨"https://hooks.example/x",
          create_slack_message "Node pool upgraded"
            [("type_url", "type.googleapis.com/google.container.v1beta1.UpgradeEvent")]⟩]
    ∧ (Py.main ⟨some [("type_url", "some.other.Event")], some "Tm9kZSBwb29sIHVwZ3JhZGVk"⟩
        (some "https://hooks.example/x") (.returns 200)).2 = [] := by
  constructor
  · exact (main_notifier_iff_allowed
      [("type_url", "type.googleapis.com/google.container.v1beta1.UpgradeEvent")]
      "Tm9kZSBwb29sIHVwZ3JhZGVk" "https://hooks.example/x"
      [78, 111, 100, 101, 32, 112, 111, 111, 108, 32, 117, 112, 103, 114, 97, 100, 101, 100]
      "Node pool upgraded" (.returns 200) (by decide) (by decide)).1 (by decide)
  · exact ((main_notifier_iff_allowed [("type_url", "some.other.Event")]
      "Tm9kZSBwb29sIHVwZ3JhZGVk" "https://hooks.example/x"
      [78, 111, 100, 101, 32, 112, 111, 111, 108, 32, 117, 112, 103, 114, 97, 100, 101, 100]
      "Node pool upgraded" (.returns 200) (by decide) (by decide)).2).1 (by decide)

/-- Claim C4: with an empty allow-list, `is_allowed_type` returns
`True` for every attributes mapping, including one lacking
`type_url`, and raises nothing. -/
theorem is_allowed_type_empty_allow_list (attrs : List (String × String)) :
    is_allowed_type attrs [] = .ok true := rfl

/-- Claim C5: with a non-empty allow-list, an attributes mapping
lacking the `type_url` key makes `is_allowed_type` raise
`KeyError('type_url')` — it does not return `False`. -/
theorem is_allowed_type_missing_type_url (attrs : List (String × String))
    (L : List String) (hne : L ≠ [])
    (hl : lookupAttr attrs "type_url" = none) :
    is_allowed_type attrs L = .error (.keyError "type_url") := by
  cases L with
  | nil => exact absurd rfl hne
  | cons url rest => simp [is_allowed_type, is_allowed_loop, dictGet, hl]

/-- Witness for C5, at the empty attributes mapping and a singleton
allow-list. -/
theorem is_allowed_type_missing_type_url_witness :
    is_allowed_type [] ["a"] = .error (.keyError "type_url") :=
  is_allowed_type_missing_type_url [] ["a"] (by decide) (by decide)

/-- Counterexample to Claim C6 as stated: for an event lacking the
`attributes` key, `main` with `SLACK_WEBHOOK_URL` absent fails with
`KeyError('attributes')` — not with the configuration lookup error —
because `event['attributes']` is read first (src/main.py line 104). -/
theorem main_missing_env_counterexample :
    Py.main ⟨none, some "Tm9kZQ=="⟩ none (.returns 200)
      = (.error (.keyError "attributes"), [])
    ∧ PyError.keyError "attributes" ≠ PyError.keyError "SLACK_WEBHOOK_URL" := by
  decide

/-- Claim C6 (amended): for every event that does contain the
`attributes` key, if `SLACK_WEBHOOK_URL` is absent, `main` fails with
the configuration lookup error `KeyError('SLACK_WEBHOOK_URL')` before
any payload decoding and before any filtering (the result is this
error, with no send, for every `data` field — even an absent or
undecodable one — and for every attributes content). -/
theorem main_missing_env_config_error (attrs : List (String × String))
    (dataField : Option String) (send : SendOutcome) :
    Py.main ⟨some attrs, dataField⟩ none send
      = (.error (.keyError "SLACK_WEBHOOK_URL"), []) := rfl

/-- Counterexample to Claim C7 as stated: `"!!!"` is not a valid
base64 encoding (none of its characters is even in the base64
alphabet), yet Python's default `b64decode` discards the invalid
characters, decodes it to the empty byte string, and `main` completes
successfully with one webhook send rather than failing with a decode
error. -/
theorem main_invalid_base64_counterexample :
    ("!!!".data.all fun c => ((b64CharVal c).isNone && ! (c == '='))) = true
    ∧ Py.main
        ⟨some [("type_url", "type.googleapis.com/google.container.v1beta1.UpgradeEvent")],
          some "!!!"⟩
        (some "https://hooks.example/x") (.returns 200)
      = (.ok (), [⟨"https://hooks.example/x",
          "\n```\n\ttype_url: type.googleapis.com/google.container.v1beta1.UpgradeEvent\n```"⟩]) := by
  decide

/-- Claim C7 (amended): for every event whose `data` field the decode
pipeline rejects (base64 decoding or UTF-8 decoding raises), `main`
fails with that decode error and the Notifier is never invoked. -/
theorem main_decode_error_propagates (attrs : List (String × String)) (raw u : String)
    (send : SendOutcome) (e : PyError)
    (hd : (b64decode raw).bind utf8Decode = .error e) :
    Py.main ⟨some attrs, some raw⟩ (some u) send = (.error e, []) := by
  cases hb : b64decode raw with
  | error e' =>
    rw [hb] at hd
    simp only [Except.bind] at hd
    cases hd
    simp [Py.main, hb]
  | ok bs =>
    rw [hb] at hd
    simp only [Except.bind] at hd
    simp [Py.main, hb, hd]

/-- Witness for C7 (amended), at `data = "a"`, whose single base64
character leaves a length not divisible by four, so base64 decoding
raises `binascii.Error('Incorrect padding')`. -/
theorem main_decode_error_propagates_witness :
    (b64decode "a").bind utf8Decode = .error (.binasciiError "Incorrect padding")
    ∧ Py.main ⟨some [("type_url", "x")], some "a"⟩
        (some "https://hooks.example/x") (.returns 200)
      = (.error (.binasciiError "Incorrect padding"), []) :=
  ⟨by decide,
    main_decode_error_propagates [("type_url", "x")] "a" "https://hooks.example/x"
      (.returns 200) (.binasciiError "Incorrect padding") (by decide)⟩

/-- Claim C8: the allow-list `main` uses is the fixed singleton
containing exactly the literal
`type.googleapis.com/google.container.v1beta1.UpgradeEvent`. -/
theorem allowed_type_urls_spec :
    allowed_type_urls
        = ["type.googleapis.com/google.container.v1beta1.UpgradeEvent"]
    ∧ allowed_type_urls.length = 1 := ⟨rfl, rfl⟩

/-- Counterexample to Claim C9 as stated: on an allowed event, when
the destination returns the non-success status 500, `webhook.send`
returns a `WebhookResponse` that `main` never inspects (src/main.py
line 115), so the invocation completes successfully. -/
theorem main_non2xx_completes_counterexample :
    Py.main
        ⟨some [("type_url", "type.googleapis.com/google.container.v1beta1.UpgradeEvent")],
          some "Tm9kZSBwb29sIHVwZ3JhZGVk"⟩
        (some "https://hooks.example/x") (.returns 500)
      = (.ok (), [⟨"https://hooks.example/x",
          "Node pool upgraded\n```\n\ttype_url: type.googleapis.com/google.container.v1beta1.UpgradeEvent\n```"⟩]) := by
  decide

/-- Claim C9 (amended): for every allowed, decodable event with the
webhook url configured, if `webhook.send` raises (e.g. a network
failure) the invocation fails with that propagated error; but a
response from the destination is not checked, so the invocation
completes successfully whatever the response status, 2xx or not. -/
theorem main_send_outcome (attrs : List (String × String)) (raw u : String)
    (bs : List Nat) (txt : String) (e : PyError) (status : Nat)
    (hb : b64decode raw = .ok bs) (hu : utf8Decode bs = .ok txt)
    (hall : is_allowed_type attrs allowed_type_urls = .ok true) :
    (Py.main ⟨some attrs, some raw⟩ (some u) (.raises e)).1 = .error e
    ∧ (Py.main ⟨some attrs, some raw⟩ (some u) (.returns status)).1 = .ok () := by
  constructor <;> simp [Py.main, hb, hu, hall]

/-- Witness for C9 (amended), at an `UpgradeEvent` envelope whose data
is the base64 encoding of "hi": a raising send fails the invocation, a
404 response does not. -/
theorem main_send_outcome_witness :
    (Py.main
        ⟨some [("type_url", "type.googleapis.com/google.container.v1beta1.UpgradeEvent")],
          some "aGk="⟩
        (some "https://hooks.example/x") (.raises (.slackSendError "connection reset"))).1
      = .error (.slackSendError "connection reset")
    ∧ (Py.main
        ⟨some [("type_url", "type.googleapis.com/google.container.v1beta1.UpgradeEvent")],
          some "aGk="⟩
        (some "https://hooks.example/x") (.returns 404)).1 = .ok () :=
  main_send_outcome
    [("type_url", "type.googleapis.com/google.container.v1beta1.UpgradeEvent")]
    "aGk=" "https://hooks.example/x" [104, 105] "hi"
    (.slackSendError "connection reset") 404 (by decide) (by decide) (by decide)

/-- Claim C10: `main` reads `event['attributes']` (line 104) before
`os.environ['SLACK_WEBHOOK_URL']` (line 105): an event lacking the
`attributes` key fails with `KeyError('attributes')` for every
environment state — including an absent webhook url — and every
`data` field. -/
theorem main_attributes_before_env (dataField : Option String)
    (env : Option String) (send : SendOutcome) :
    Py.main ⟨none, dataField⟩ env send
      = (.error (.keyError "attributes"), []) := rfl
